import Mathlib

/-!
Shallow embedding of the cosmetic-formulation engine
(`src/app/logic.py`, `src/app/database.py`, `src/app/models.py`).

Conventions of the embedding:
* Python floats are modelled as rationals (`ℚ`); `round(x, n)` is modelled as
  round-half-to-even at `n` decimal digits (Python3 banker rounding on the
  idealized decimal value).
* Python truthiness on optional floats (`x or default`, `if x:`) is modelled
  explicitly: `none` and `some 0` are falsy.
* `async` methods are pure functions here (each build works on a read-only
  snapshot of the repository; the source awaits lookups sequentially).
* Python exceptions are modelled with `Except String`; a raise before any
  mutation leaves the repository state unchanged, which the embedding renders
  by returning the input state alongside the error.
* Nondeterministic identifiers (`uuid.uuid4()`) are passed in as parameters;
  presentation-only fields that no engine code reads (`cas_number` aside,
  e.g. `supplier`, `organic_certified`, `created_at`) are omitted.
-/

namespace CosmoAgent

/-- Round-half-to-even of a rational to an integer (Python3 `round` on the
idealized decimal value). -/
def roundHalfToEven (q : ℚ) : ℤ :=
  let n := ⌊q⌋
  let r := q - (n : ℚ)
  if r < 1/2 then n
  else if 1/2 < r then n + 1
  else if n % 2 = 0 then n else n + 1

/-- Python `round(q, ndigits)` for a nonnegative number of digits. -/
def pyRound (ndigits : ℕ) (q : ℚ) : ℚ :=
  let m : ℚ := (10 : ℚ) ^ ndigits
  ((roundHalfToEven (q * m) : ℤ) : ℚ) / m

/-- Fractional decimal digits of a rational in `[0,1)`, with fuel (mirrors the
finite precision of a Python float repr; all values in this development
terminate well within the fuel). -/
def fracDigits : ℕ → ℚ → List Char
  | 0, _ => []
  | fuel + 1, x =>
    if x = 0 then []
    else
      let y := x * 10
      let d := (⌊y⌋).toNat
      Char.ofNat (48 + d) :: fracDigits fuel (y - (⌊y⌋ : ℚ))

/-- Decimal rendering of a rational the way Python renders the corresponding
float in an f-string (`2.0` prints as `"2.0"`, `0.5` as `"0.5"`). -/
def pyFloatRepr (q : ℚ) : String :=
  let sign := if q < 0 then "-" else ""
  let a := |q|
  let ip := (⌊a⌋).toNat
  let ds := fracDigits 17 (a - (⌊a⌋ : ℚ))
  sign ++ toString ip ++ "." ++ (if ds.isEmpty then "0" else String.mk ds)

/-- Model of `models.py` `ProductType`. -/
inductive ProductType where
  | cream | lotion | serum | cleanser | toner | mask | sunscreen | shampoo | conditioner
deriving DecidableEq, Repr

/-- Model of `models.py` `IngredientFunction` (note: the member is spelled
`MOISTURISER`; `logic.py` refers to a nonexistent `MOISTURIZER`). -/
inductive IngredientFunction where
  | emulsifier | moisturiser | active | preservative | thickener | antioxidant
  | surfactant | fragrance | colorant | ph_adjuster | solvent
deriving DecidableEq, Repr

/-- Model of `models.py` `ComplianceStatus`. -/
inductive ComplianceStatus where
  | compliant | non_compliant | requires_review
deriving DecidableEq, Repr

/-- Model of `models.py` `Ingredient` (fields the engine reads). -/
structure Ingredient where
  id : String
  name : String
  inci_name : String
  cas_number : Option String := none
  function : IngredientFunction
  category : String
  max_concentration : Option ℚ := none
  min_concentration : Option ℚ := none
  prohibited_in_eu : Bool := false
  restricted_in_eu : Bool := false
  cost_per_kg : Option ℚ := none
  natural_origin : Bool := false
deriving DecidableEq, Repr

/-- Model of `models.py` `IngredientAdd`. -/
structure IngredientAdd where
  name : String
  inci_name : String
  cas_number : Option String := none
  function : IngredientFunction
  category : String
  max_concentration : Option ℚ := none
  min_concentration : Option ℚ := none
  prohibited_in_eu : Bool := false
  restricted_in_eu : Bool := false
  cost_per_kg : Option ℚ := none
  natural_origin : Bool := false
deriving DecidableEq, Repr

/-- Model of `models.py` `FormulationIngredient`. -/
structure FormulationIngredient where
  ingredient_id : String
  name : String
  inci_name : String
  concentration : ℚ
  function : IngredientFunction
deriving DecidableEq, Repr

/-- Model of `models.py` `FormulationRequest`. `target_properties` is a string-keyed
dict; the engine only tests key membership and the truthiness of
`performance_priority`, so entries are modelled as key/truthiness pairs. -/
structure FormulationRequest where
  product_type : ProductType
  target_properties : List (String × Bool) := []
  required_ingredients : List String := []
  excluded_ingredients : List String := []
  max_cost_per_kg : Option ℚ := none
  natural_preference : Bool := false
  target_ph : Option ℚ := none
  stability_priority : Bool := true
deriving DecidableEq, Repr

/-- The dict lookup `target_properties.get(key, False)` read as a truthiness
test, on the modelled target-properties dict. -/
def getProp (props : List (String × Bool)) (key : String) : Bool :=
  match props.find? (fun p => p.1 = key) with
  | some p => p.2
  | none => false

/-- Key membership (`"anti_aging" in target_props`). -/
def hasProp (props : List (String × Bool)) (key : String) : Bool :=
  props.any (fun p => p.1 = key)

/-- Model of `models.py` `FormulationResponse` (the `id` is a fresh uuid and
`created_at` a timestamp, both nondeterministic and read by no engine code;
they are omitted).  `predicted_ph` and `stability_score` are `Optional` in
the source model but always populated by the generator. -/
structure FormulationResponse where
  product_type : ProductType
  ingredients : List FormulationIngredient
  total_percentage : ℚ
  estimated_cost_per_kg : Option ℚ
  predicted_ph : ℚ
  stability_score : ℚ
  compliance_status : ComplianceStatus
  instructions : String
  shelf_life_estimate : ℕ
deriving DecidableEq, Repr

/-- Model of `models.py` `ComplianceIssue`. -/
structure ComplianceIssue where
  ingredient_id : String
  ingredient_name : String
  issue_type : String
  severity : String
  description : String
  recommendation : String
deriving DecidableEq, Repr

/-- Model of `models.py` `ComplianceCheck`. -/
structure ComplianceCheck where
  overall_status : ComplianceStatus
  ukes_compliant : Bool
  cpnp_ready : Bool
  issues : List ComplianceIssue
  warnings : List String
  prohibited_ingredients : List String
  concentration_violations : List String
  labeling_requirements : List String
deriving DecidableEq, Repr

/-- Model of `models.py` `FormularyTemplate` (fields the engine reads;
`base_ingredients` entries are `ingredient_id`/`concentration` pairs). -/
structure FormularyTemplate where
  id : String
  name : String
  product_type : ProductType
  base_ingredients : List (String × ℚ)
  variable_ingredients : List String := []
  instructions : String := ""
deriving DecidableEq, Repr

/-- The regulatory dict of `database.py`; `check_compliance` only reads the
`labeling_requirements` key. -/
structure RegulatoryData where
  labeling_requirements : List String := []
deriving DecidableEq, Repr

/-- One entry of the `ingredients` list inside the payload dict handed to
`check_compliance` (`ingredient_data.get("ingredient_id")`,
`ingredient_data.get("concentration", 0)`). -/
structure PayloadIngredient where
  ingredient_id : String
  concentration : ℚ := 0
deriving DecidableEq, Repr

/-- Model of `database.py` `DatabaseManager` in-memory state.  Python dicts preserve
insertion order, so the keyed collections are association lists. -/
structure DatabaseManager where
  ingredients : List (String × Ingredient)
  templates : List (String × FormularyTemplate)
  regulatory_data : RegulatoryData
deriving DecidableEq, Repr

/-- Model of `database.py` `get_ingredient_by_id`: `self.ingredients.get(ingredient_id)`. -/
def get_ingredient_by_id (db : DatabaseManager) (ingredient_id : String) : Option Ingredient :=
  (db.ingredients.find? (fun p => p.1 = ingredient_id)).map (fun p => p.2)

/-- Model of `database.py` `get_ingredients` (truthy `category`/`function` filters,
then `[:limit]`). -/
def get_ingredients (db : DatabaseManager) (category : Option String)
    (function : Option IngredientFunction) (limit : ℕ) : List Ingredient :=
  let ings : List Ingredient := db.ingredients.map (fun p => p.2)
  let ings : List Ingredient := match category with
    | some c => if c = "" then ings else ings.filter (fun i => i.category = c)
    | none => ings
  let ings : List Ingredient := match function with
    | some f => ings.filter (fun i => i.function = f)
    | none => ings
  ings.take limit

/-- Model of `database.py` `get_templates` (a `ProductType` value is a nonempty string,
hence always truthy when present). -/
def get_templates (db : DatabaseManager) (product_type : Option ProductType) :
    List FormularyTemplate :=
  let ts := db.templates.map (fun p => p.2)
  match product_type with
  | some pt => ts.filter (fun t => t.product_type = pt)
  | none => ts

/-- Model of `database.py` `add_ingredient`.  The fresh uuid is a parameter.  The
duplicate check raises `ValueError` before any mutation, so on the error path
the returned collection is the input collection. -/
def add_ingredient (ingredients : List (String × Ingredient))
    (ingredient_data : IngredientAdd) (fresh_id : String) :
    List (String × Ingredient) × Except String String :=
  let existing := (ingredients.map (fun p => p.2)).filter
    (fun i => i.inci_name.toLower = ingredient_data.inci_name.toLower)
  if existing ≠ [] then
    (ingredients, .error ("Ingredient " ++ ingredient_data.inci_name ++ " already exists"))
  else
    let ingredient : Ingredient :=
      { id := fresh_id
        name := ingredient_data.name
        inci_name := ingredient_data.inci_name
        cas_number := ingredient_data.cas_number
        function := ingredient_data.function
        category := ingredient_data.category
        max_concentration := ingredient_data.max_concentration
        min_concentration := ingredient_data.min_concentration
        prohibited_in_eu := ingredient_data.prohibited_in_eu
        restricted_in_eu := ingredient_data.restricted_in_eu
        cost_per_kg := ingredient_data.cost_per_kg
        natural_origin := ingredient_data.natural_origin }
    (ingredients ++ [(fresh_id, ingredient)], .ok fresh_id)

/-- Defaulting of optional concentration fields in
`_calculate_optimal_concentration`: Python `x or d` replaces both `None` and
the falsy float `0.0` by the default. -/
def orFloat (o : Option ℚ) (d : ℚ) : ℚ :=
  match o with
  | none => d
  | some x => if x = 0 then d else x

/-- Model of `logic.py` `FormulationEngine.compatibility_matrix` (the `incompatible`
lists; the `synergistic` lists are read by no code path). -/
def compatibility_matrix_incompatible (ingredient_id : String) : Option (List String) :=
  if ingredient_id = "vitamin_c" then some ["niacinamide"]
  else if ingredient_id = "retinol" then some ["vitamin_c", "aha_bha"]
  else if ingredient_id = "niacinamide" then some ["vitamin_c"]
  else none

/-- Model of `logic.py` `_calculate_optimal_concentration`. -/
def calculate_optimal_concentration (ingredient : Ingredient)
    (request : FormulationRequest) (current_total : ℚ) : ℚ :=
  let min_conc := orFloat ingredient.min_concentration (1/100)
  let max_conc := orFloat ingredient.max_concentration 5
  let remaining := 100 - current_total
  let max_conc := min max_conc (remaining * (8/10))
  if ingredient.function = .active then
    if getProp request.target_properties "performance_priority" then
      min max_conc (max_conc * (8/10))
    else
      min max_conc (max_conc * (1/2))
  else if ingredient.function = .preservative then
    max min_conc (min max_conc (1/2))
  else if ingredient.function = .emulsifier then
    if request.product_type = .cream then min max_conc 3
    else if request.product_type = .lotion then min max_conc 2
    else min max_conc 1
  else
    min max_conc ((min_conc + max_conc) / 2)

/-- Model of `logic.py` `_score_ingredient_for_request`.  The first statement of the
source builds the `function_priorities` dict, whose literal contains
`IngredientFunction.MOISTURIZER: 8.0`; `models.py` spells the member
`MOISTURISER`, so every call raises `AttributeError` before any scoring logic
executes.  The embedding renders that unconditional raise. -/
def score_ingredient_for_request (_ingredient : Ingredient)
    (_request : FormulationRequest) (_used_functions : List IngredientFunction) :
    Except String ℚ :=
  .error "AttributeError: MOISTURIZER"

/-- The scoring loop of `_select_complementary_ingredients`
(`for ingredient in available: score = ...; if score > 0: append`),
propagating the exception of the first scorer call. -/
def score_available (request : FormulationRequest)
    (used_functions : List IngredientFunction) :
    List Ingredient → Except String (List (Ingredient × ℚ))
  | [] => .ok []
  | ingredient :: rest =>
    match score_ingredient_for_request ingredient request used_functions with
    | .error e => .error e
    | .ok score =>
      match score_available request used_functions rest with
      | .error e => .error e
      | .ok scored => .ok (if score > 0 then (ingredient, score) :: scored else scored)

/-- Stable insertion of one scored candidate into a descending-by-score list
(an earlier-arriving candidate goes before candidates of equal score,
matching the stability of the Python sort). -/
def insertByScoreDesc (x : Ingredient × ℚ) :
    List (Ingredient × ℚ) → List (Ingredient × ℚ)
  | [] => [x]
  | y :: ys => if y.2 > x.2 then y :: insertByScoreDesc x ys else x :: y :: ys

/-- The sort call on scored candidates, descending by score, as a stable
insertion sort. -/
def sortByScoreDesc : List (Ingredient × ℚ) → List (Ingredient × ℚ)
  | [] => []
  | x :: xs => insertByScoreDesc x (sortByScoreDesc xs)

/-- Build one `FormulationIngredient` from a repository record and a
concentration, as every appending site of `logic.py` does. -/
def mkFormulationIngredient (ingredient : Ingredient) (conc : ℚ) :
    FormulationIngredient :=
  { ingredient_id := ingredient.id
    name := ingredient.name
    inci_name := ingredient.inci_name
    concentration := conc
    function := ingredient.function }

/-- The greedy selection loop of `_select_complementary_ingredients`: walk the
sorted candidates, break once the remaining budget is at most `0.1`, admit a
candidate only when its computed concentration is positive and fits the
remaining budget.  (The loop also adds to `used_functions`, but scoring has
already happened, so that mutation is dead.) -/
def select_loop (request : FormulationRequest) (current_remaining : ℚ) :
    List (Ingredient × ℚ) → List FormulationIngredient
  | [] => []
  | (ingredient, _score) :: rest =>
    if current_remaining ≤ 1/10 then []
    else
      let conc := calculate_optimal_concentration ingredient request (100 - current_remaining)
      if conc > 0 ∧ conc ≤ current_remaining then
        mkFormulationIngredient ingredient conc ::
          select_loop request (current_remaining - conc) rest
      else
        select_loop request current_remaining rest

/-- Model of `logic.py` `_select_complementary_ingredients`. -/
def select_complementary_ingredients (db : DatabaseManager)
    (request : FormulationRequest)
    (current_formulation : List FormulationIngredient)
    (remaining_percentage : ℚ) : Except String (List FormulationIngredient) :=
  let used_functions := current_formulation.map (fun f => f.function)
  let all_ingredients := get_ingredients db none none 100
  let available := all_ingredients.filter (fun ing =>
    ing.id ∉ request.excluded_ingredients ∧
    ing.id ∉ current_formulation.map (fun f => f.ingredient_id))
  match score_available request used_functions available with
  | .error e => .error e
  | .ok scored_ingredients =>
    let sorted := sortByScoreDesc scored_ingredients
    .ok (select_loop request remaining_percentage sorted)

/-- Model of `logic.py` `_normalize_formulation`: rescale to 100% and round each entry
to 2 decimals, short-circuiting on a zero total. -/
def normalize_formulation (formulation : List FormulationIngredient) :
    List FormulationIngredient :=
  let total := (formulation.map (fun f => f.concentration)).sum
  if total = 0 then formulation
  else
    formulation.map (fun ingredient =>
      { ingredient with concentration := pyRound 2 (ingredient.concentration / total * 100) })

/-- Model of `logic.py` `_check_ingredient_compatibility`. -/
def check_ingredient_compatibility (ingredient_id : String)
    (formulation : List FormulationIngredient) : Bool :=
  match compatibility_matrix_incompatible ingredient_id with
  | none => true
  | some incompatible =>
    let formulation_ids := formulation.map (fun f => f.ingredient_id)
    ¬ incompatible.any (fun x => formulation_ids.contains x)

/-- One iteration of `_validate_formulation`: re-clamp the entry into its
repository bounds (max clamp first, then min clamp, each skipped when the
field is `None` or the falsy `0.0`), drop the entry when its repository
record is missing or it fails the compatibility check against the incoming
list. -/
def validate_step (db : DatabaseManager)
    (formulation : List FormulationIngredient)
    (validated : List FormulationIngredient)
    (ingredient : FormulationIngredient) : List FormulationIngredient :=
  match get_ingredient_by_id db ingredient.ingredient_id with
  | none => validated
  | some db_ingredient =>
    let conc := ingredient.concentration
    let conc := match db_ingredient.max_concentration with
      | some m => if m = 0 then conc else min conc m
      | none => conc
    let conc := match db_ingredient.min_concentration with
      | some m => if m = 0 then conc else max conc m
      | none => conc
    if check_ingredient_compatibility ingredient.ingredient_id formulation then
      validated ++ [{ ingredient with concentration := conc }]
    else
      validated

/-- Model of `logic.py` `_validate_formulation`. -/
def validate_formulation (db : DatabaseManager)
    (formulation : List FormulationIngredient)
    (_request : FormulationRequest) : List FormulationIngredient :=
  formulation.foldl (validate_step db formulation) []

/-- Model of `logic.py` `_calculate_cost` (skips entries with a missing record or a
`None`/`0.0` cost; returns `None` when the accumulated cost is not positive). -/
def calculate_cost (db : DatabaseManager)
    (formulation : List FormulationIngredient) : Option ℚ :=
  let total_cost := formulation.foldl (fun total ingredient =>
    match get_ingredient_by_id db ingredient.ingredient_id with
    | some db_ingredient =>
      match db_ingredient.cost_per_kg with
      | some c => if c = 0 then total else total + ingredient.concentration / 100 * c
      | none => total
    | none => total) 0
  if total_cost > 0 then some (pyRound 2 total_cost) else none

/-- Model of `logic.py` static `ph_contributors` table. -/
def ph_contributors (ingredient_id : String) : Option ℚ :=
  if ingredient_id = "water" then some 7
  else if ingredient_id = "glycerin" then some 7
  else if ingredient_id = "vitamin_c" then some (7/2)
  else if ingredient_id = "hyaluronic_acid" then some (13/2)
  else if ingredient_id = "phenoxyethanol" then some 6
  else none

/-- Model of `logic.py` `_predict_ph`. -/
def predict_ph (formulation : List FormulationIngredient) : ℚ :=
  let acc := formulation.foldl (fun (acc : ℚ × ℚ) ingredient =>
    match ph_contributors ingredient.ingredient_id with
    | some ph => (acc.1 + ph * ingredient.concentration, acc.2 + ingredient.concentration)
    | none => acc) (0, 0)
  if acc.2 > 0 then pyRound 1 (acc.1 / acc.2) else 13/2

/-- Model of `logic.py` `_predict_stability`. -/
def predict_stability (formulation : List FormulationIngredient) : ℚ :=
  let stability_score : ℚ := 7
  let has_emulsifier := formulation.any (fun f => f.function = .emulsifier)
  let has_preservative := formulation.any (fun f => f.function = .preservative)
  let has_antioxidant := formulation.any (fun f => f.function = .antioxidant)
  let stability_score := if has_emulsifier then stability_score + 1 else stability_score
  let stability_score := if has_preservative then stability_score + 3/2 else stability_score
  let stability_score := if has_antioxidant then stability_score + 1/2 else stability_score
  let ingredient_ids := formulation.map (fun f => f.ingredient_id)
  let stability_score :=
    if "vitamin_c" ∈ ingredient_ids ∧ "retinol" ∈ ingredient_ids then
      stability_score - 2
    else stability_score
  min 10 (max 0 (pyRound 1 stability_score))

/-- Model of `logic.py` `_generate_instructions`. -/
def generate_instructions (product_type : ProductType) : String :=
  match product_type with
  | .cream =>
    "1. Heat water phase ingredients to 70°C\n2. Heat oil phase ingredients to 70°C\n3. Slowly add oil phase to water phase with continuous mixing\n4. Cool to 40°C while mixing\n5. Add heat-sensitive actives below 40°C\n6. Adjust pH if needed\n7. Fill into sterilized containers"
  | .serum =>
    "1. Mix water and glycols at room temperature\n2. Add water-soluble actives one by one\n3. Mix until completely dissolved\n4. Add preservative system\n5. Adjust pH to 5.5-6.5\n6. Fill into sterilized containers"
  | .lotion =>
    "1. Heat water phase to 65°C\n2. Heat oil phase to 65°C\n3. Add oil phase to water phase with mixing\n4. Cool to room temperature\n5. Add actives and preservatives\n6. Adjust pH and viscosity\n7. Fill into containers"
  | _ => "Standard cosmetic manufacturing process"

/-- Step 1 of `generate_formulation`: seed from the first matching template,
skipping base ingredients whose repository record is missing. -/
def seed_from_template (db : DatabaseManager)
    (base_template : Option FormularyTemplate) : List FormulationIngredient × ℚ :=
  match base_template with
  | some t => t.base_ingredients.foldl (fun acc bi =>
      match get_ingredient_by_id db bi.1 with
      | some ingredient =>
        (acc.1 ++ [mkFormulationIngredient ingredient bi.2], acc.2 + bi.2)
      | none => acc) ([], 0)
  | none => ([], 0)

/-- Step 2 of `generate_formulation`: insert each required ingredient not yet
present, at its computed concentration, when that concentration is positive. -/
def add_required_ingredients (db : DatabaseManager) (request : FormulationRequest)
    (init : List FormulationIngredient × ℚ) : List FormulationIngredient × ℚ :=
  request.required_ingredients.foldl (fun acc req_ing_id =>
    if acc.1.any (fun f => f.ingredient_id = req_ing_id) then acc
    else
      match get_ingredient_by_id db req_ing_id with
      | some ingredient =>
        let conc := calculate_optimal_concentration ingredient request acc.2
        if conc > 0 then
          (acc.1 ++ [mkFormulationIngredient ingredient conc], acc.2 + conc)
        else acc
      | none => acc) init

/-- Model of `logic.py` `generate_formulation`.  The response `id` (a fresh uuid) and
`created_at` timestamp are nondeterministic and omitted from the modelled
response; an uncaught Python exception is the `.error` case. -/
def generate_formulation (db : DatabaseManager) (request : FormulationRequest) :
    Except String FormulationResponse :=
  let templates := get_templates db (some request.product_type)
  let base_template := templates.head?
  let init := seed_from_template db base_template
  let step2 := add_required_ingredients db request init
  let step3 : Except String (List FormulationIngredient × ℚ) :=
    if step2.2 < 99 then
      match select_complementary_ingredients db request step2.1 (99 - step2.2) with
      | .error e => .error e
      | .ok complementary_ings =>
        let f := step2.1 ++ complementary_ings
        .ok (f, (f.map (fun g => g.concentration)).sum)
    else .ok step2
  match step3 with
  | .error e => .error e
  | .ok (formulation, total_percentage) =>
    let step4_formulation : List FormulationIngredient :=
      if total_percentage ≠ 100 then normalize_formulation formulation else formulation
    let step4_total : ℚ :=
      if total_percentage ≠ 100 then 100 else total_percentage
    let formulation := validate_formulation db step4_formulation request
    .ok
      { product_type := request.product_type
        ingredients := formulation
        total_percentage := step4_total
        estimated_cost_per_kg := calculate_cost db formulation
        predicted_ph := predict_ph formulation
        stability_score := predict_stability formulation
        compliance_status := .compliant
        instructions := generate_instructions request.product_type
        shelf_life_estimate := 24 }

/-- The four accumulator lists of the `check_compliance` loop. -/
structure ComplianceAcc where
  issues : List ComplianceIssue := []
  warnings : List String := []
  prohibited : List String := []
  concentration_violations : List String := []
deriving DecidableEq, Repr

/-- The critical issue appended for a prohibited ingredient. -/
def prohibitedIssue (ingredient_id : String) (ingredient : Ingredient) : ComplianceIssue :=
  { ingredient_id := ingredient_id
    ingredient_name := ingredient.name
    issue_type := "prohibited"
    severity := "critical"
    description := ingredient.name ++ " is prohibited in EU cosmetics"
    recommendation := "Remove this ingredient" }

/-- The formatted concentration-violation string
(`f"{ingredient.name}: {concentration}% (max: {ingredient.max_concentration}%)"`). -/
def violationText (ingredient : Ingredient) (concentration max_c : ℚ) : String :=
  ingredient.name ++ ": " ++ pyFloatRepr concentration ++ "% (max: " ++
    pyFloatRepr max_c ++ "%)"

/-- The high-severity issue appended for a concentration-limit violation. -/
def limitIssue (ingredient_id : String) (ingredient : Ingredient)
    (concentration max_c : ℚ) : ComplianceIssue :=
  { ingredient_id := ingredient_id
    ingredient_name := ingredient.name
    issue_type := "concentration_limit"
    severity := "high"
    description := "Concentration " ++ pyFloatRepr concentration ++
      "% exceeds limit of " ++ pyFloatRepr max_c ++ "%"
    recommendation := "Reduce concentration to max " ++ pyFloatRepr max_c ++ "%" }

/-- One iteration of the `check_compliance` loop over
`formulation_data.get("ingredients", [])`.  An entry whose repository record
is missing is skipped; the concentration-limit test
(`if ingredient.max_concentration and concentration > ...`) treats a `None`
or `0.0` limit as absent. -/
def compliance_step (db : DatabaseManager) (acc : ComplianceAcc)
    (entry : PayloadIngredient) : ComplianceAcc :=
  match get_ingredient_by_id db entry.ingredient_id with
  | none => acc
  | some ingredient =>
    let acc := if ingredient.prohibited_in_eu then
        { acc with
          prohibited := acc.prohibited ++ [ingredient.name]
          issues := acc.issues ++ [prohibitedIssue entry.ingredient_id ingredient] }
      else acc
    let acc := match ingredient.max_concentration with
      | some m =>
        if m ≠ 0 ∧ m < entry.concentration then
          { acc with
            concentration_violations := acc.concentration_violations ++
              [violationText ingredient entry.concentration m]
            issues := acc.issues ++
              [limitIssue entry.ingredient_id ingredient entry.concentration m] }
        else acc
      | none => acc
    if ingredient.restricted_in_eu then
      { acc with warnings := acc.warnings ++
          [ingredient.name ++ " is restricted - verify compliance"] }
    else acc

/-- Model of `logic.py` `check_compliance`.  The payload dict is modelled by its
`ingredients` list (the only key the method reads besides the repository
regulatory data). -/
def check_compliance (db : DatabaseManager)
    (formulation_data : List PayloadIngredient) : ComplianceCheck :=
  let acc := formulation_data.foldl (compliance_step db) {}
  let overall_status : ComplianceStatus :=
    if acc.issues ≠ [] then
      if acc.issues.any (fun i => i.severity = "critical") then .non_compliant
      else .requires_review
    else .compliant
  { overall_status := overall_status
    ukes_compliant := overall_status = ComplianceStatus.compliant
    cpnp_ready := overall_status = ComplianceStatus.compliant
    issues := acc.issues
    warnings := acc.warnings
    prohibited_ingredients := acc.prohibited
    concentration_violations := acc.concentration_violations
    labeling_requirements := db.regulatory_data.labeling_requirements }

/-- An empty repository snapshot. -/
def db0 : DatabaseManager :=
  { ingredients := [], templates := [], regulatory_data := {} }

/-- A plain serum request with all defaults. -/
def req0 : FormulationRequest := { product_type := .serum }

/-- The default glycerin record of `database.py` (fields the engine reads). -/
def glycerin : Ingredient :=
  { id := "glycerin", name := "Glycerin", inci_name := "Glycerin"
    function := .moisturiser, category := "humectant"
    max_concentration := some 10, min_concentration := some (1/2)
    cost_per_kg := some (5/2), natural_origin := true }

/-- A cream template whose single base ingredient is glycerin at 100%. -/
def tplC1 : FormularyTemplate :=
  { id := "t", name := "Glycerin base", product_type := .cream
    base_ingredients := [("glycerin", 100)] }

/-- Repository holding glycerin and the glycerin-only cream template. -/
def dbC1 : DatabaseManager :=
  { ingredients := [("glycerin", glycerin)], templates := [("t", tplC1)]
    regulatory_data := {} }

/-- A plain cream request with all defaults. -/
def reqC1 : FormulationRequest := { product_type := .cream }

/-- Sum of the ingredient concentrations of a response. -/
def responseConcSum (r : FormulationResponse) : ℚ :=
  (r.ingredients.map (fun f => f.concentration)).sum

/-- Concentration sum of a successfully generated response, `none` on an
uncaught exception. -/
def okConcSum (e : Except String FormulationResponse) : Option ℚ :=
  e.toOption.map responseConcSum

/-- Ingredient list of a successfully generated response. -/
def okIngredients (e : Except String FormulationResponse) :
    Option (List FormulationIngredient) :=
  e.toOption.map (fun r => r.ingredients)

/-- Counterexample input for C3: a preservative whose minimal effective dose
clamp starts from `min_concentration = 2`. -/
def ingC3 : Ingredient :=
  { id := "pres", name := "Pres", inci_name := "Pres"
    function := .preservative, category := "preservative"
    min_concentration := some 2, max_concentration := some 5 }

/-- C8 counterexample input: concentrations with three decimal places that
sum to exactly 100. -/
def l8 : List FormulationIngredient :=
  [⟨"a", "A", "A", 6667/200, .solvent⟩, ⟨"b", "B", "B", 13333/200, .solvent⟩]

/-- C8 witness input: two-decimal concentrations summing to 100. -/
def l8w : List FormulationIngredient :=
  [⟨"a", "A", "A", 40, .solvent⟩, ⟨"b", "B", "B", 60, .solvent⟩]

/-- C10 witness fixture: a stored ingredient with INCI name `glycerin`. -/
def ing10 : Ingredient :=
  { id := "glycerin", name := "Glycerin", inci_name := "glycerin"
    function := .moisturiser, category := "humectant" }

/-- C10 witness fixture: an add request whose INCI name differs from the
stored one only by case. -/
def add10 : IngredientAdd :=
  { name := "Glycerin Pure", inci_name := "Glycerin"
    function := .moisturiser, category := "humectant" }

/-- The response generated for the empty repository and the default serum
request. -/
def resp0 : FormulationResponse :=
  { product_type := .serum
    ingredients := []
    total_percentage := 100
    estimated_cost_per_kg := none
    predicted_ph := 13/2
    stability_score := 7
    compliance_status := .compliant
    instructions := generate_instructions .serum
    shelf_life_estimate := 24 }

/-- C7 counterexample input: vitamin-C carrying the emulsifier function and
retinol carrying the preservative function. -/
def l7 : List FormulationIngredient :=
  [⟨"vitamin_c", "Vitamin C", "Ascorbic Acid", 10, .emulsifier⟩,
    ⟨"retinol", "Retinol", "Retinol", 5, .preservative⟩]

/-- C7 witness fixture: a vitamin-C entry whose function contributes no
stability bonus. -/
def vcSolvent : FormulationIngredient :=
  ⟨"vitamin_c", "Vitamin C", "Ascorbic Acid", 10, .solvent⟩

/-- C7 witness fixture: a retinol entry with preservative function. -/
def retPres : FormulationIngredient :=
  ⟨"retinol", "Retinol", "Retinol", 5, .preservative⟩

/-- Issues contributed by a single payload entry (specification-side
companion of `compliance_step`). -/
def issuesOf (db : DatabaseManager) (entry : PayloadIngredient) : List ComplianceIssue :=
  match get_ingredient_by_id db entry.ingredient_id with
  | none => []
  | some ingredient =>
    (if ingredient.prohibited_in_eu then [prohibitedIssue entry.ingredient_id ingredient] else []) ++
    (match ingredient.max_concentration with
     | some m =>
       if m ≠ 0 ∧ m < entry.concentration then
         [limitIssue entry.ingredient_id ingredient entry.concentration m]
       else []
     | none => [])

/-- Warnings contributed by a single payload entry. -/
def warningsOf (db : DatabaseManager) (entry : PayloadIngredient) : List String :=
  match get_ingredient_by_id db entry.ingredient_id with
  | none => []
  | some ingredient =>
    if ingredient.restricted_in_eu then
      [ingredient.name ++ " is restricted - verify compliance"]
    else []

/-- Violation strings contributed by a single payload entry. -/
def violationsOf (db : DatabaseManager) (entry : PayloadIngredient) : List String :=
  match get_ingredient_by_id db entry.ingredient_id with
  | none => []
  | some ingredient =>
    match ingredient.max_concentration with
    | some m =>
      if m ≠ 0 ∧ m < entry.concentration then
        [violationText ingredient entry.concentration m]
      else []
    | none => []

/-- C4 witness fixture: a prohibited ingredient. -/
def hydroquinone : Ingredient :=
  { id := "hydroquinone", name := "Hydroquinone", inci_name := "Hydroquinone"
    function := .active, category := "active", prohibited_in_eu := true }

/-- C4 witness fixture: repository holding only hydroquinone. -/
def db4 : DatabaseManager :=
  { ingredients := [("hydroquinone", hydroquinone)], templates := []
    regulatory_data := {} }

/-- C4 witness fixture: a payload entry carrying hydroquinone at 1%. -/
def e4 : PayloadIngredient := { ingredient_id := "hydroquinone", concentration := 1 }

/-- C5 counterexample fixture: an ingredient whose `max_concentration` is set
to the falsy float `0.0`. -/
def ingZeroMax : Ingredient :=
  { id := "zero", name := "ZeroMax", inci_name := "ZeroMax"
    function := .active, category := "active", max_concentration := some 0 }

/-- C5 counterexample fixture: repository holding only that ingredient. -/
def dbZ : DatabaseManager :=
  { ingredients := [("zero", ingZeroMax)], templates := [], regulatory_data := {} }

/-- C5 witness fixture: the default phenoxyethanol record (restricted,
`max_concentration = 1.0`). -/
def phenoxyethanol : Ingredient :=
  { id := "phenoxyethanol", name := "Phenoxyethanol", inci_name := "Phenoxyethanol"
    function := .preservative, category := "preservative"
    max_concentration := some 1, min_concentration := some (1/10)
    cost_per_kg := some (25/2), restricted_in_eu := true }

/-- C5 witness fixture: repository holding phenoxyethanol. -/
def db5 : DatabaseManager :=
  { ingredients := [("phenoxyethanol", phenoxyethanol)], templates := []
    regulatory_data := {} }

/-- C5 witness fixture: phenoxyethanol at 2% against its 1% limit. -/
def e5 : PayloadIngredient := { ingredient_id := "phenoxyethanol", concentration := 2 }

/-- Per-entry compliance cleanliness: the stored record (when found) is not
prohibited and the entry does not exceed a truthy concentration limit.  Used
to state when a restriction alone is in play. -/
def entry_within_limits (db : DatabaseManager) (entry : PayloadIngredient) : Bool :=
  match get_ingredient_by_id db entry.ingredient_id with
  | none => true
  | some ingredient =>
    !ingredient.prohibited_in_eu &&
    (match ingredient.max_concentration with
     | some m => decide (m = 0) || decide (entry.concentration ≤ m)
     | none => true)

/-- C6 counterexample fixture: an ingredient both restricted and prohibited. -/
def ingRP : Ingredient :=
  { id := "bad", name := "Badstuff", inci_name := "Badstuff"
    function := .active, category := "active"
    prohibited_in_eu := true, restricted_in_eu := true }

/-- C6 counterexample fixture: repository holding that ingredient. -/
def dbRP : DatabaseManager :=
  { ingredients := [("bad", ingRP)], templates := [], regulatory_data := {} }

/-- C6 witness fixture: a restricted-only ingredient. -/
def ingR6 : Ingredient :=
  { id := "r6", name := "Restricted6", inci_name := "Restricted6"
    function := .active, category := "active"
    max_concentration := some 5, restricted_in_eu := true }

/-- C6 witness fixture: repository holding that ingredient. -/
def db6 : DatabaseManager :=
  { ingredients := [("r6", ingR6)], templates := [], regulatory_data := {} }

/-- C6 witness fixture: the restricted ingredient within its limit. -/
def e6 : PayloadIngredient := { ingredient_id := "r6", concentration := 2 }

/-- The pydantic constraints `Field(ge=0, le=100)` on the optional
concentration-bound fields of an `Ingredient` record (`models.py`): a record
violating them cannot be constructed. -/
def ingredient_field_bounds (ingredient : Ingredient) : Bool :=
  (match ingredient.max_concentration with
   | some m => decide (0 ≤ m) && decide (m ≤ 100)
   | none => true) &&
  (match ingredient.min_concentration with
   | some m => decide (0 ≤ m) && decide (m ≤ 100)
   | none => true)

/-- Every concentration of the list lies in `[0,100]` (the pydantic constraint
on `FormulationIngredient.concentration`). -/
def concentrations_in_range (l : List FormulationIngredient) : Prop :=
  ∀ f ∈ l, 0 ≤ f.concentration ∧ f.concentration ≤ 100

/-- The response generated for `dbC1`/`reqC1` (glycerin-only cream template at
100%, re-clamped to 10% during validation). -/
def respC1 : FormulationResponse :=
  { product_type := .cream
    ingredients := [⟨"glycerin", "Glycerin", "Glycerin", 10, .moisturiser⟩]
    total_percentage := 100
    estimated_cost_per_kg := some (1/4)
    predicted_ph := 7
    stability_score := 7
    compliance_status := .compliant
    instructions := generate_instructions .cream
    shelf_life_estimate := 24 }

/-- C9 witness fixture: repository with glycerin and a cream template. -/
def db9 : DatabaseManager :=
  { ingredients := [("glycerin", glycerin)], templates := [("t", tplC1)]
    regulatory_data := {} }

/-- C9 witness fixture: serum request excluding glycerin. -/
def req9 : FormulationRequest :=
  { product_type := .serum, excluded_ingredients := ["glycerin"] }

/-! ## Auxiliary lemmas and claim theorems -/

/-- C3 counterexample: with `max_concentration = 5` set and
`currentTotalPercent = 99`, the calculator returns `2`, exceeding
`min(max_concentration, 0.8 × (100 − 99)) = 0.8`: the preservative branch
`max(min_conc, min(max_conc, 0.5))` lets `min_concentration` override the
capped maximum. -/
theorem c3_counterexample :
    ingC3.max_concentration = some 5 ∧
    calculate_optimal_concentration ingC3 req0 99 = 2 ∧
    ¬ calculate_optimal_concentration ingC3 req0 99 ≤
        min 5 ((100 - 99) * (8/10)) := by with_unfolding_all decide

/-- C3 (amended): for every ingredient with `max_concentration` set, the
calculator never exceeds `max(effMin, min(effMax, 0.8 × (100 − currentTotal)))`,
where `effMax` is `max_concentration` when nonzero (else the default `5.0`)
and `effMin` is `min_concentration` when set and nonzero (else `0.01`); the
`effMin` term is reachable only through the preservative branch. -/
theorem calculate_optimal_concentration_bounded (ingredient : Ingredient)
    (request : FormulationRequest) (current_total : ℚ) (m : ℚ)
    (_hmax : ingredient.max_concentration = some m) :
    calculate_optimal_concentration ingredient request current_total ≤
      max (orFloat ingredient.min_concentration (1/100))
        (min (orFloat ingredient.max_concentration 5)
          ((100 - current_total) * (8/10))) := by
  cases hfun : ingredient.function <;>
    simp only [calculate_optimal_concentration, hfun, reduceCtorEq, if_false,
      if_true] <;>
    (try split_ifs) <;>
    first
      | exact le_trans (min_le_left _ _) (le_max_right _ _)
      | exact max_le_max (le_refl _) (min_le_left _ _)

/-- C3 witness: the amended bound evaluated at the counterexample input. -/
theorem c3_witness :
    ingC3.max_concentration = some 5 ∧
    calculate_optimal_concentration ingC3 req0 99 ≤
      max (orFloat ingC3.min_concentration (1/100))
        (min (orFloat ingC3.max_concentration 5) ((100 - 99) * (8/10))) :=
  ⟨by with_unfolding_all decide, calculate_optimal_concentration_bounded ingC3 req0 99 5 (by with_unfolding_all decide)⟩

/-- C8 counterexample: the list sums to exactly 100 but normalization changes
its values (each entry is re-rounded to 2 decimals: 33.335% becomes 33.34%). -/
theorem c8_counterexample :
    (l8.map (fun f => f.concentration)).sum = 100 ∧
    normalize_formulation l8 ≠ l8 := by with_unfolding_all decide

/-- C8 (amended): normalization leaves a formulation unchanged when its
concentrations sum to exactly 100 and each concentration already has at most
two decimal places (is a fixed point of the 2-decimal rounding). -/
theorem normalize_formulation_idempotent (l : List FormulationIngredient)
    (h1 : (l.map (fun f => f.concentration)).sum = 100)
    (h2 : ∀ f ∈ l, pyRound 2 f.concentration = f.concentration) :
    normalize_formulation l = l := by
  unfold normalize_formulation
  rw [h1]
  rw [if_neg (by norm_num)]
  have hmap : ∀ f ∈ l,
      ({ f with concentration := pyRound 2 (f.concentration / 100 * 100) } :
        FormulationIngredient) = f := by
    intro f hf
    have hc : f.concentration / 100 * 100 = f.concentration := by ring
    rw [hc, h2 f hf]
  calc l.map (fun f =>
        { f with concentration := pyRound 2 (f.concentration / 100 * 100) })
      = l.map id := List.map_congr_left hmap
    _ = l := List.map_id l

/-- C8 witness: normalization fixes the 40/60 formulation pointwise. -/
theorem c8_witness :
    (l8w.map (fun f => f.concentration)).sum = 100 ∧
    normalize_formulation l8w = l8w :=
  ⟨by with_unfolding_all decide, normalize_formulation_idempotent l8w (by with_unfolding_all decide) (by with_unfolding_all decide)⟩

/-- C10 (confirmed): whenever some stored ingredient has the same INCI name as
the new one up to case, `add_ingredient` raises the descriptive duplicate
`ValueError` and the ingredient collection is returned unchanged (the raise
happens before any insertion). -/
theorem add_ingredient_duplicate_rejected (ingredients : List (String × Ingredient))
    (ingredient_data : IngredientAdd) (fresh_id : String)
    (h : ∃ p ∈ ingredients,
      (p.2).inci_name.toLower = ingredient_data.inci_name.toLower) :
    add_ingredient ingredients ingredient_data fresh_id =
      (ingredients,
        .error ("Ingredient " ++ ingredient_data.inci_name ++ " already exists")) := by
  unfold add_ingredient
  rcases h with ⟨p, hp, he⟩
  have hmem : p.2 ∈ (ingredients.map (fun q => q.2)).filter
      (fun i => i.inci_name.toLower = ingredient_data.inci_name.toLower) := by
    refine List.mem_filter.mpr ⟨List.mem_map_of_mem _ hp, ?_⟩
    exact decide_eq_true he
  have hne : (ingredients.map (fun q => q.2)).filter
      (fun i => i.inci_name.toLower = ingredient_data.inci_name.toLower) ≠ [] :=
    List.ne_nil_of_mem hmem
  rw [if_pos hne]

/-- C10 witness: adding `Glycerin` over stored `glycerin` is rejected with the
duplicate message and leaves the collection unchanged. -/
theorem c10_witness :
    add_ingredient [("glycerin", ing10)] add10 "fresh-uuid" =
      ([("glycerin", ing10)],
        .error ("Ingredient " ++ add10.inci_name ++ " already exists")) :=
  add_ingredient_duplicate_rejected [("glycerin", ing10)] add10 "fresh-uuid"
    ⟨("glycerin", ing10), by with_unfolding_all decide, by with_unfolding_all decide⟩

/-- C1 counterexample: on a repository whose cream template holds glycerin at
100%, the generated response (validation re-clamps glycerin down to its
`max_concentration = 10` after normalization) has ingredient concentrations
summing to 10, not within `1e-6` of 100 — even though the response still
reports `total_percentage = 100`. -/
theorem c1_counterexample :
    okConcSum (generate_formulation dbC1 reqC1) = some 10 ∧
    ¬ (|(10 : ℚ) - 100| ≤ 1/1000000) := by
  with_unfolding_all decide

/-- C2 (confirmed): whatever the repository and request — including prohibited
or over-limit ingredients — a successfully generated response carries the
hard-coded `compliance_status = compliant`; `generate_formulation` contains
no call to `check_compliance`. -/
theorem generate_formulation_always_compliant (db : DatabaseManager)
    (request : FormulationRequest) (r : FormulationResponse)
    (h : generate_formulation db request = .ok r) :
    r.compliance_status = .compliant := by
  simp only [generate_formulation] at h
  split at h
  · exact absurd h (by simp)
  · simp only [Except.ok.injEq] at h
    rw [← h]

/-- C2 witness: the empty-repository serum build succeeds and its status is
compliant. -/
theorem c2_witness :
    generate_formulation db0 req0 = .ok resp0 ∧
    resp0.compliance_status = .compliant :=
  ⟨by with_unfolding_all rfl,
    generate_formulation_always_compliant db0 req0 resp0 (by with_unfolding_all rfl)⟩

/-- C7 counterexample: in the two-entry formulation
`[vitamin_c (emulsifier), retinol (preservative)]` both entries carry a
stability-bonus function, so removing either one changes the bonus flags and
neither removal shifts the score by exactly 2.0 (scores: both present 7.5,
retinol alone 8.5, vitamin-C alone 8.0). -/
theorem c7_counterexample :
    ("vitamin_c" ∈ l7.map (fun f => f.ingredient_id) ∧
      "retinol" ∈ l7.map (fun f => f.ingredient_id)) ∧
    predict_stability (l7.drop 1) ≠ predict_stability l7 + 2 ∧
    predict_stability (l7.take 1) ≠ predict_stability l7 + 2 := by
  with_unfolding_all decide

/-- C7 (amended): the stability score always lies in `[0,10]`; and removing
one of a co-present vitamin-C/retinol pair raises the score by exactly 2.0
provided the removal leaves the emulsifier/preservative/antioxidant presence
flags unchanged and the removed id no longer occurs in the rest. -/
theorem predict_stability_range_and_penalty :
    (∀ l : List FormulationIngredient,
      0 ≤ predict_stability l ∧ predict_stability l ≤ 10) ∧
    (∀ (pre post : List FormulationIngredient) (e : FormulationIngredient),
      "vitamin_c" ∈ (pre ++ e :: post).map (fun f => f.ingredient_id) →
      "retinol" ∈ (pre ++ e :: post).map (fun f => f.ingredient_id) →
      (e.ingredient_id = "vitamin_c" ∨ e.ingredient_id = "retinol") →
      e.ingredient_id ∉ (pre ++ post).map (fun f => f.ingredient_id) →
      (pre ++ post).any (fun f => f.function = .emulsifier) =
        (pre ++ e :: post).any (fun f => f.function = .emulsifier) →
      (pre ++ post).any (fun f => f.function = .preservative) =
        (pre ++ e :: post).any (fun f => f.function = .preservative) →
      (pre ++ post).any (fun f => f.function = .antioxidant) =
        (pre ++ e :: post).any (fun f => f.function = .antioxidant) →
      predict_stability (pre ++ post) = predict_stability (pre ++ e :: post) + 2) := by
  constructor
  · intro l
    unfold predict_stability
    exact ⟨le_min (by norm_num) (le_max_left 0 _), min_le_left _ _⟩
  · intro pre post e hvc hret hid hgone hE hP hA
    have hpair1 : ¬ ("vitamin_c" ∈ (pre ++ post).map (fun f => f.ingredient_id) ∧
        "retinol" ∈ (pre ++ post).map (fun f => f.ingredient_id)) := by
      rcases hid with h | h <;> rw [h] at hgone <;> tauto
    have hpair2 : "vitamin_c" ∈ (pre ++ e :: post).map (fun f => f.ingredient_id) ∧
        "retinol" ∈ (pre ++ e :: post).map (fun f => f.ingredient_id) := ⟨hvc, hret⟩
    simp only [predict_stability]
    rw [if_pos hpair2, if_neg hpair1, ← hE, ← hP, ← hA]
    generalize (pre ++ post).any (fun f => f.function = .emulsifier) = b1
    generalize (pre ++ post).any (fun f => f.function = .preservative) = b2
    generalize (pre ++ post).any (fun f => f.function = .antioxidant) = b3
    cases b1 <;> cases b2 <;> cases b3 <;> with_unfolding_all decide

/-- C7 witness: the range holds on the pair formulation, and removing the
solvent-function vitamin-C entry raises the score by exactly 2.0
(6.5 to 8.5). -/
theorem c7_witness :
    (0 ≤ predict_stability ([] ++ vcSolvent :: [retPres]) ∧
      predict_stability ([] ++ vcSolvent :: [retPres]) ≤ 10) ∧
    predict_stability ([] ++ [retPres]) =
      predict_stability ([] ++ vcSolvent :: [retPres]) + 2 :=
  ⟨predict_stability_range_and_penalty.1 ([] ++ vcSolvent :: [retPres]),
    predict_stability_range_and_penalty.2 [] [retPres] vcSolvent
      (by with_unfolding_all decide) (by with_unfolding_all decide)
      (by with_unfolding_all decide) (by with_unfolding_all decide)
      (by with_unfolding_all decide) (by with_unfolding_all decide)
      (by with_unfolding_all decide)⟩

lemma compliance_step_issues (db : DatabaseManager) (acc : ComplianceAcc)
    (entry : PayloadIngredient) :
    (compliance_step db acc entry).issues = acc.issues ++ issuesOf db entry := by
  unfold compliance_step issuesOf
  cases hg : get_ingredient_by_id db entry.ingredient_id with
  | none => simp
  | some ingredient =>
    cases hp : ingredient.prohibited_in_eu <;>
      cases hm : ingredient.max_concentration <;>
      cases hr : ingredient.restricted_in_eu <;>
      simp only [hp, hm, hr, Bool.false_eq_true, if_true, if_false] <;>
      (try split_ifs) <;>
      simp

lemma compliance_step_warnings (db : DatabaseManager) (acc : ComplianceAcc)
    (entry : PayloadIngredient) :
    (compliance_step db acc entry).warnings = acc.warnings ++ warningsOf db entry := by
  unfold compliance_step warningsOf
  cases hg : get_ingredient_by_id db entry.ingredient_id with
  | none => simp
  | some ingredient =>
    cases hp : ingredient.prohibited_in_eu <;>
      cases hm : ingredient.max_concentration <;>
      cases hr : ingredient.restricted_in_eu <;>
      simp only [hp, hm, hr, Bool.false_eq_true, if_true, if_false] <;>
      (try split_ifs) <;>
      simp

lemma compliance_step_violations (db : DatabaseManager) (acc : ComplianceAcc)
    (entry : PayloadIngredient) :
    (compliance_step db acc entry).concentration_violations =
      acc.concentration_violations ++ violationsOf db entry := by
  unfold compliance_step violationsOf
  cases hg : get_ingredient_by_id db entry.ingredient_id with
  | none => simp
  | some ingredient =>
    cases hp : ingredient.prohibited_in_eu <;>
      cases hm : ingredient.max_concentration <;>
      cases hr : ingredient.restricted_in_eu <;>
      simp only [hp, hm, hr, Bool.false_eq_true, if_true, if_false] <;>
      (try split_ifs) <;>
      simp

lemma compliance_fold_issues (db : DatabaseManager) (l : List PayloadIngredient) :
    ∀ acc : ComplianceAcc,
      (l.foldl (compliance_step db) acc).issues = acc.issues ++ (l.map (issuesOf db)).flatten := by
  induction l with
  | nil => intro acc; simp
  | cons x xs ih =>
    intro acc
    simp only [List.foldl_cons, ih, compliance_step_issues, List.map_cons,
      List.flatten_cons, List.append_assoc]

lemma compliance_fold_warnings (db : DatabaseManager) (l : List PayloadIngredient) :
    ∀ acc : ComplianceAcc,
      (l.foldl (compliance_step db) acc).warnings =
        acc.warnings ++ (l.map (warningsOf db)).flatten := by
  induction l with
  | nil => intro acc; simp
  | cons x xs ih =>
    intro acc
    simp only [List.foldl_cons, ih, compliance_step_warnings, List.map_cons,
      List.flatten_cons, List.append_assoc]

lemma compliance_fold_violations (db : DatabaseManager) (l : List PayloadIngredient) :
    ∀ acc : ComplianceAcc,
      (l.foldl (compliance_step db) acc).concentration_violations =
        acc.concentration_violations ++ (l.map (violationsOf db)).flatten := by
  induction l with
  | nil => intro acc; simp
  | cons x xs ih =>
    intro acc
    simp only [List.foldl_cons, ih, compliance_step_violations, List.map_cons,
      List.flatten_cons, List.append_assoc]

lemma check_compliance_issues_eq (db : DatabaseManager) (l : List PayloadIngredient) :
    (check_compliance db l).issues = (l.map (issuesOf db)).flatten := by
  simp only [check_compliance, compliance_fold_issues]
  rfl

lemma check_compliance_warnings_eq (db : DatabaseManager) (l : List PayloadIngredient) :
    (check_compliance db l).warnings = (l.map (warningsOf db)).flatten := by
  simp only [check_compliance, compliance_fold_warnings]
  rfl

lemma check_compliance_violations_eq (db : DatabaseManager) (l : List PayloadIngredient) :
    (check_compliance db l).concentration_violations = (l.map (violationsOf db)).flatten := by
  simp only [check_compliance, compliance_fold_violations]
  rfl

lemma check_compliance_status_of_critical (db : DatabaseManager)
    (l : List PayloadIngredient) (i : ComplianceIssue)
    (hi : i ∈ (check_compliance db l).issues) (hc : i.severity = "critical") :
    (check_compliance db l).overall_status = .non_compliant := by
  simp only [check_compliance] at hi ⊢
  have hne : (l.foldl (compliance_step db) {}).issues ≠ [] := List.ne_nil_of_mem hi
  have hany : (l.foldl (compliance_step db) {}).issues.any
      (fun i => i.severity = "critical") = true :=
    List.any_eq_true.mpr ⟨i, hi, decide_eq_true hc⟩
  simp only [hne, hany, if_pos, if_true, ne_eq, not_false_eq_true]

/-- C4 (confirmed): a payload entry whose repository record is prohibited in
the EU makes `check_compliance` report `non_compliant` and put a
critical-severity `prohibited` issue referencing that ingredient into the
issues list. -/
theorem check_compliance_prohibited (db : DatabaseManager)
    (payload : List PayloadIngredient) (entry : PayloadIngredient)
    (ingredient : Ingredient)
    (hmem : entry ∈ payload)
    (hing : get_ingredient_by_id db entry.ingredient_id = some ingredient)
    (hpro : ingredient.prohibited_in_eu = true) :
    (check_compliance db payload).overall_status = .non_compliant ∧
    prohibitedIssue entry.ingredient_id ingredient ∈ (check_compliance db payload).issues ∧
    (prohibitedIssue entry.ingredient_id ingredient).issue_type = "prohibited" ∧
    (prohibitedIssue entry.ingredient_id ingredient).severity = "critical" ∧
    (prohibitedIssue entry.ingredient_id ingredient).ingredient_id = entry.ingredient_id := by
  have hin : prohibitedIssue entry.ingredient_id ingredient ∈ issuesOf db entry := by
    unfold issuesOf
    simp [hing, hpro]
  have hmem2 : prohibitedIssue entry.ingredient_id ingredient ∈
      (check_compliance db payload).issues := by
    rw [check_compliance_issues_eq]
    exact List.mem_flatten.mpr ⟨issuesOf db entry, List.mem_map_of_mem _ hmem, hin⟩
  exact ⟨check_compliance_status_of_critical db payload _ hmem2 rfl, hmem2, rfl, rfl, rfl⟩

/-- C4 witness: the hydroquinone payload is reported non-compliant with the
critical prohibited issue. -/
theorem c4_witness :
    (check_compliance db4 [e4]).overall_status = .non_compliant ∧
    prohibitedIssue e4.ingredient_id hydroquinone ∈ (check_compliance db4 [e4]).issues ∧
    (prohibitedIssue e4.ingredient_id hydroquinone).issue_type = "prohibited" ∧
    (prohibitedIssue e4.ingredient_id hydroquinone).severity = "critical" ∧
    (prohibitedIssue e4.ingredient_id hydroquinone).ingredient_id = e4.ingredient_id :=
  check_compliance_prohibited db4 [e4] e4 hydroquinone (by with_unfolding_all decide)
    (by with_unfolding_all rfl) rfl

/-- C5 counterexample: `ZeroMax` has `max_concentration = 0.0` set and appears
at concentration 1 (exceeding the limit), yet `check_compliance` reports no
issue at all: the guard `if ingredient.max_concentration and ...` treats the
falsy `0.0` limit as absent. -/
theorem c5_counterexample :
    ingZeroMax.max_concentration = some 0 ∧
    (0 : ℚ) < 1 ∧
    (check_compliance dbZ [{ ingredient_id := "zero", concentration := 1 }]).issues = [] ∧
    (check_compliance dbZ [{ ingredient_id := "zero", concentration := 1 }]).concentration_violations = [] := by
  with_unfolding_all decide

/-- C5 (amended): for a payload entry whose repository record has a nonzero
`max_concentration` that the entry concentration exceeds, `check_compliance`
emits the high-severity `concentration_limit` issue for that ingredient and
the formatted violation string. -/
theorem check_compliance_concentration_limit (db : DatabaseManager)
    (payload : List PayloadIngredient) (entry : PayloadIngredient)
    (ingredient : Ingredient) (m : ℚ)
    (hmem : entry ∈ payload)
    (hing : get_ingredient_by_id db entry.ingredient_id = some ingredient)
    (hm : ingredient.max_concentration = some m)
    (hm0 : m ≠ 0)
    (hgt : m < entry.concentration) :
    limitIssue entry.ingredient_id ingredient entry.concentration m ∈
      (check_compliance db payload).issues ∧
    (limitIssue entry.ingredient_id ingredient entry.concentration m).issue_type =
      "concentration_limit" ∧
    (limitIssue entry.ingredient_id ingredient entry.concentration m).severity = "high" ∧
    (limitIssue entry.ingredient_id ingredient entry.concentration m).ingredient_id =
      entry.ingredient_id ∧
    violationText ingredient entry.concentration m ∈
      (check_compliance db payload).concentration_violations := by
  have hin : limitIssue entry.ingredient_id ingredient entry.concentration m ∈
      issuesOf db entry := by
    unfold issuesOf
    simp [hing, hm, hm0, hgt]
  have hvin : violationText ingredient entry.concentration m ∈ violationsOf db entry := by
    unfold violationsOf
    simp [hing, hm, hm0, hgt]
  refine ⟨?_, rfl, rfl, rfl, ?_⟩
  · rw [check_compliance_issues_eq]
    exact List.mem_flatten.mpr ⟨issuesOf db entry, List.mem_map_of_mem _ hmem, hin⟩
  · rw [check_compliance_violations_eq]
    exact List.mem_flatten.mpr ⟨violationsOf db entry, List.mem_map_of_mem _ hmem, hvin⟩

/-- C5 witness: the 2% phenoxyethanol payload yields the high-severity
`concentration_limit` issue and the violation string
`Phenoxyethanol: 2.0% (max: 1.0%)`. -/
theorem c5_witness :
    (limitIssue e5.ingredient_id phenoxyethanol e5.concentration 1 ∈
        (check_compliance db5 [e5]).issues ∧
      (limitIssue e5.ingredient_id phenoxyethanol e5.concentration 1).issue_type =
        "concentration_limit" ∧
      (limitIssue e5.ingredient_id phenoxyethanol e5.concentration 1).severity = "high" ∧
      (limitIssue e5.ingredient_id phenoxyethanol e5.concentration 1).ingredient_id =
        e5.ingredient_id ∧
      violationText phenoxyethanol e5.concentration 1 ∈
        (check_compliance db5 [e5]).concentration_violations) ∧
    violationText phenoxyethanol e5.concentration 1 = "Phenoxyethanol: 2.0% (max: 1.0%)" :=
  ⟨check_compliance_concentration_limit db5 [e5] e5 phenoxyethanol 1
      (by with_unfolding_all decide) (by with_unfolding_all rfl)
      (by with_unfolding_all rfl) (by with_unfolding_all decide)
      (by with_unfolding_all decide),
    by with_unfolding_all rfl⟩

lemma mem_warningsOf (db : DatabaseManager) (entry : PayloadIngredient) (w : String) :
    w ∈ warningsOf db entry ↔
      ∃ ingredient, get_ingredient_by_id db entry.ingredient_id = some ingredient ∧
        ingredient.restricted_in_eu = true ∧
        w = ingredient.name ++ " is restricted - verify compliance" := by
  unfold warningsOf
  cases hg : get_ingredient_by_id db entry.ingredient_id with
  | none => simp
  | some ingredient =>
    cases hr : ingredient.restricted_in_eu <;> simp [hr]

lemma issuesOf_eq_nil_of_within_limits (db : DatabaseManager)
    (entry : PayloadIngredient) (h : entry_within_limits db entry = true) :
    issuesOf db entry = [] := by
  unfold entry_within_limits at h
  unfold issuesOf
  cases hg : get_ingredient_by_id db entry.ingredient_id with
  | none => rfl
  | some ingredient =>
    rw [hg] at h
    simp only [Bool.and_eq_true, Bool.not_eq_eq_eq_not, Bool.not_true] at h
    obtain ⟨hp, hmax⟩ := h
    cases hm : ingredient.max_concentration with
    | none => simp [hp, hm]
    | some m =>
      rw [hm] at hmax
      simp only [Bool.or_eq_true, decide_eq_true_eq] at hmax
      have hnc : ¬ (m ≠ 0 ∧ m < entry.concentration) := by
        rcases hmax with h0 | hle
        · intro hc; exact hc.1 h0
        · intro hc; exact absurd hc.2 (not_lt.mpr hle)
      simp [hp, hm, hnc]

/-- C6 counterexample: `Badstuff` is restricted and also prohibited, yet the
restriction warning is still emitted — the source adds the warning for every
restricted ingredient without checking `prohibited_in_eu`, so the claimed
"restricted and not prohibited" characterization fails. -/
theorem c6_counterexample :
    ingRP.prohibited_in_eu = true ∧
    ingRP.restricted_in_eu = true ∧
    (check_compliance dbRP [{ ingredient_id := "bad", concentration := 1 }]).warnings =
      ["Badstuff is restricted - verify compliance"] := by
  with_unfolding_all decide

/-- C6 (amended): a restriction warning for an entry appears exactly when its
found repository record is marked `restricted_in_eu` — regardless of
`prohibited_in_eu` — and a restriction alone (no prohibition, no truthy-limit
violation anywhere in the payload) never produces a structured issue. -/
theorem check_compliance_restriction_warnings (db : DatabaseManager)
    (payload : List PayloadIngredient) :
    (∀ w : String, w ∈ (check_compliance db payload).warnings ↔
      ∃ entry ∈ payload, ∃ ingredient : Ingredient,
        get_ingredient_by_id db entry.ingredient_id = some ingredient ∧
        ingredient.restricted_in_eu = true ∧
        w = ingredient.name ++ " is restricted - verify compliance") ∧
    ((∀ entry ∈ payload, entry_within_limits db entry = true) →
      (check_compliance db payload).issues = []) := by
  constructor
  · intro w
    rw [check_compliance_warnings_eq]
    rw [List.mem_flatten]
    constructor
    · rintro ⟨ws, hws, hw⟩
      rcases List.mem_map.mp hws with ⟨entry, hentry, rfl⟩
      rcases (mem_warningsOf db entry w).mp hw with ⟨ing, hing, hres, hweq⟩
      exact ⟨entry, hentry, ing, hing, hres, hweq⟩
    · rintro ⟨entry, hentry, ing, hing, hres, hweq⟩
      refine ⟨warningsOf db entry, List.mem_map_of_mem _ hentry, ?_⟩
      exact (mem_warningsOf db entry w).mpr ⟨ing, hing, hres, hweq⟩
  · intro hclean
    rw [check_compliance_issues_eq]
    rw [List.flatten_eq_nil_iff]
    intro ws hws
    rcases List.mem_map.mp hws with ⟨entry, hentry, rfl⟩
    exact issuesOf_eq_nil_of_within_limits db entry (hclean entry hentry)

/-- C6 witness: the restricted-only payload gets exactly its free-text warning
and no structured issue. -/
theorem c6_witness :
    ("Restricted6 is restricted - verify compliance" ∈
      (check_compliance db6 [e6]).warnings) ∧
    (check_compliance db6 [e6]).issues = [] :=
  ⟨((check_compliance_restriction_warnings db6 [e6]).1 _).mpr
      ⟨e6, by with_unfolding_all decide, ingR6, by with_unfolding_all rfl,
        rfl, rfl⟩,
    (check_compliance_restriction_warnings db6 [e6]).2
      (by with_unfolding_all decide)⟩

lemma bounds_max_of (ingredient : Ingredient)
    (h : ingredient_field_bounds ingredient = true) (m : ℚ)
    (hm : ingredient.max_concentration = some m) : 0 ≤ m ∧ m ≤ 100 := by
  unfold ingredient_field_bounds at h
  rw [hm] at h
  simp only [Bool.and_eq_true, decide_eq_true_eq] at h
  exact h.1

lemma bounds_min_of (ingredient : Ingredient)
    (h : ingredient_field_bounds ingredient = true) (m : ℚ)
    (hm : ingredient.min_concentration = some m) : 0 ≤ m ∧ m ≤ 100 := by
  unfold ingredient_field_bounds at h
  rw [hm] at h
  simp only [Bool.and_eq_true, decide_eq_true_eq] at h
  exact h.2

lemma roundHalfToEven_nonneg (q : ℚ) (h : 0 ≤ q) : 0 ≤ roundHalfToEven q := by
  simp only [roundHalfToEven]
  have h0 : (0 : ℤ) ≤ ⌊q⌋ := Int.floor_nonneg.mpr h
  split_ifs <;> omega

lemma roundHalfToEven_le_ceil (q : ℚ) : roundHalfToEven q ≤ ⌈q⌉ := by
  simp only [roundHalfToEven]
  have hfc : ⌊q⌋ ≤ ⌈q⌉ := Int.floor_le_ceil q
  split_ifs with h1 h2 h3
  · exact hfc
  · have hlt : (⌊q⌋ : ℚ) < q := by linarith
    have := Int.lt_ceil.mpr hlt
    omega
  · exact hfc
  · have hge : 1/2 ≤ q - (⌊q⌋ : ℚ) := le_of_not_lt h1
    have hlt : (⌊q⌋ : ℚ) < q := by linarith
    have := Int.lt_ceil.mpr hlt
    omega

lemma pyRound_nonneg (n : ℕ) (q : ℚ) (h : 0 ≤ q) : 0 ≤ pyRound n q := by
  unfold pyRound
  apply div_nonneg
  · exact_mod_cast roundHalfToEven_nonneg _ (by positivity)
  · positivity

lemma pyRound_le_100 (n : ℕ) (q : ℚ) (h : q ≤ 100) : pyRound n q ≤ 100 := by
  unfold pyRound
  rw [div_le_iff₀ (by positivity : (0:ℚ) < 10 ^ n)]
  have h1 : roundHalfToEven (q * 10 ^ n) ≤ ⌈q * 10 ^ n⌉ := roundHalfToEven_le_ceil _
  have h2 : ⌈q * 10 ^ n⌉ ≤ 100 * 10 ^ n := by
    apply Int.ceil_le.mpr
    push_cast
    have hp : (0 : ℚ) ≤ 10 ^ n := by positivity
    nlinarith
  calc ((roundHalfToEven (q * 10 ^ n) : ℤ) : ℚ)
      ≤ ((⌈q * 10 ^ n⌉ : ℤ) : ℚ) := by exact_mod_cast h1
    _ ≤ ((100 * 10 ^ n : ℤ) : ℚ) := by exact_mod_cast h2
    _ = 100 * 10 ^ n := by push_cast; ring

lemma orFloat_le (o : Option ℚ) (d c : ℚ) (ho : ∀ m, o = some m → m ≤ c)
    (hd : d ≤ c) : orFloat o d ≤ c := by
  cases o with
  | none => exact hd
  | some x =>
    simp only [orFloat]
    split_ifs with h
    · exact hd
    · exact ho x rfl

/-- The branch-independent bound of `_calculate_optimal_concentration`:
every branch stays below `max(effMin, min(effMax, 0.8 × remaining))`. -/
lemma calc_le_max (ingredient : Ingredient) (request : FormulationRequest)
    (current_total : ℚ) :
    calculate_optimal_concentration ingredient request current_total ≤
      max (orFloat ingredient.min_concentration (1/100))
        (min (orFloat ingredient.max_concentration 5)
          ((100 - current_total) * (8/10))) := by
  cases hfun : ingredient.function <;>
    simp only [calculate_optimal_concentration, hfun, reduceCtorEq, if_false,
      if_true] <;>
    (try split_ifs) <;>
    first
      | exact le_trans (min_le_left _ _) (le_max_right _ _)
      | exact max_le_max (le_refl _) (min_le_left _ _)

/-- Under the pydantic field bounds the calculator never exceeds 100. -/
lemma calc_le_100 (ingredient : Ingredient) (request : FormulationRequest)
    (current_total : ℚ) (hb : ingredient_field_bounds ingredient = true) :
    calculate_optimal_concentration ingredient request current_total ≤ 100 := by
  refine le_trans (calc_le_max ingredient request current_total) (max_le ?_ ?_)
  · apply orFloat_le
    · intro m hm
      exact (bounds_min_of ingredient hb m hm).2
    · norm_num
  · refine le_trans (min_le_left _ _) (orFloat_le _ _ _ ?_ (by norm_num))
    intro m hm
    exact (bounds_max_of ingredient hb m hm).2

lemma get_ingredient_mem (db : DatabaseManager) (i : String) (ing : Ingredient)
    (h : get_ingredient_by_id db i = some ing) : ∃ p ∈ db.ingredients, p.2 = ing := by
  unfold get_ingredient_by_id at h
  rcases Option.map_eq_some'.mp h with ⟨p, hp, hpe⟩
  exact ⟨p, List.mem_of_find?_eq_some hp, hpe⟩

lemma get_bounds (db : DatabaseManager) (i : String) (ing : Ingredient)
    (hdb : ∀ p ∈ db.ingredients, ingredient_field_bounds p.2 = true)
    (h : get_ingredient_by_id db i = some ing) :
    ingredient_field_bounds ing = true := by
  rcases get_ingredient_mem db i ing h with ⟨p, hp, hpe⟩
  rw [← hpe]
  exact hdb p hp

lemma clamp_max_bounds (o : Option ℚ) (c : ℚ) (hc : 0 ≤ c ∧ c ≤ 100)
    (ho : ∀ m, o = some m → 0 ≤ m ∧ m ≤ 100) :
    0 ≤ (match o with | some m => if m = 0 then c else min c m | none => c) ∧
      (match o with | some m => if m = 0 then c else min c m | none => c) ≤ 100 := by
  cases o with
  | none => exact hc
  | some m =>
    dsimp only
    split_ifs with h
    · exact hc
    · have hm := ho m rfl
      exact ⟨le_min hc.1 hm.1, le_trans (min_le_left _ _) hc.2⟩

lemma clamp_min_bounds (o : Option ℚ) (c : ℚ) (hc : 0 ≤ c ∧ c ≤ 100)
    (ho : ∀ m, o = some m → 0 ≤ m ∧ m ≤ 100) :
    0 ≤ (match o with | some m => if m = 0 then c else max c m | none => c) ∧
      (match o with | some m => if m = 0 then c else max c m | none => c) ≤ 100 := by
  cases o with
  | none => exact hc
  | some m =>
    dsimp only
    split_ifs with h
    · exact hc
    · have hm := ho m rfl
      exact ⟨le_trans hc.1 (le_max_left _ _), max_le hc.2 hm.2⟩

lemma seed_fold_inv (db : DatabaseManager) (l : List (String × ℚ))
    (hl : ∀ bi ∈ l, 0 ≤ bi.2 ∧ bi.2 ≤ 100) :
    ∀ acc : List FormulationIngredient × ℚ, concentrations_in_range acc.1 →
      concentrations_in_range ((l.foldl (fun acc bi =>
        match get_ingredient_by_id db bi.1 with
        | some ingredient =>
          (acc.1 ++ [mkFormulationIngredient ingredient bi.2], acc.2 + bi.2)
        | none => acc) acc).1) := by
  induction l with
  | nil => intro acc hacc; simpa using hacc
  | cons x xs ih =>
    intro acc hacc
    rw [List.foldl_cons]
    apply ih (fun bi hbi => hl bi (List.mem_cons_of_mem _ hbi))
    cases hg : get_ingredient_by_id db x.1 with
    | none => simpa [hg] using hacc
    | some ing =>
      simp only [hg]
      intro f hf
      rcases List.mem_append.mp hf with hf | hf
      · exact hacc f hf
      · rcases List.mem_singleton.mp hf with rfl
        simpa [mkFormulationIngredient] using hl x (List.mem_cons_self _ _)

lemma seed_from_template_inv (db : DatabaseManager) (bt : Option FormularyTemplate)
    (hb : ∀ t, bt = some t → ∀ bi ∈ t.base_ingredients, 0 ≤ bi.2 ∧ bi.2 ≤ 100) :
    concentrations_in_range (seed_from_template db bt).1 := by
  cases bt with
  | none =>
    intro f hf
    simp [seed_from_template] at hf
  | some t =>
    unfold seed_from_template
    exact seed_fold_inv db t.base_ingredients (hb t rfl) ([], 0)
      (by intro f hf; simp at hf)

lemma required_fold_inv (db : DatabaseManager) (request : FormulationRequest)
    (hdb : ∀ p ∈ db.ingredients, ingredient_field_bounds p.2 = true) :
    ∀ (ids : List String) (acc : List FormulationIngredient × ℚ),
      concentrations_in_range acc.1 →
      concentrations_in_range ((ids.foldl (fun acc req_ing_id =>
        if acc.1.any (fun f => f.ingredient_id = req_ing_id) then acc
        else
          match get_ingredient_by_id db req_ing_id with
          | some ingredient =>
            let conc := calculate_optimal_concentration ingredient request acc.2
            if conc > 0 then
              (acc.1 ++ [mkFormulationIngredient ingredient conc], acc.2 + conc)
            else acc
          | none => acc) acc).1) := by
  intro ids
  induction ids with
  | nil => intro acc hacc; simpa using hacc
  | cons x xs ih =>
    intro acc hacc
    rw [List.foldl_cons]
    apply ih
    split_ifs with h1
    · exact hacc
    · cases hg : get_ingredient_by_id db x with
      | none => simpa [hg] using hacc
      | some ing =>
        simp only [hg]
        split_ifs with h2
        · intro f hf
          rcases List.mem_append.mp hf with hf | hf
          · exact hacc f hf
          · rcases List.mem_singleton.mp hf with rfl
            refine ⟨?_, ?_⟩
            · simpa [mkFormulationIngredient] using le_of_lt h2
            · simpa [mkFormulationIngredient] using
                calc_le_100 ing request acc.2 (get_bounds db x ing hdb hg)
        · exact hacc

lemma add_required_ingredients_inv (db : DatabaseManager)
    (request : FormulationRequest)
    (hdb : ∀ p ∈ db.ingredients, ingredient_field_bounds p.2 = true)
    (init : List FormulationIngredient × ℚ)
    (hinit : concentrations_in_range init.1) :
    concentrations_in_range (add_required_ingredients db request init).1 := by
  unfold add_required_ingredients
  exact required_fold_inv db request hdb request.required_ingredients init hinit

lemma score_available_ok (request : FormulationRequest)
    (used_functions : List IngredientFunction) (l : List Ingredient)
    (s : List (Ingredient × ℚ)) (h : score_available request used_functions l = .ok s) :
    l = [] ∧ s = [] := by
  cases l with
  | nil =>
    simp only [score_available, Except.ok.injEq] at h
    exact ⟨rfl, h.symm⟩
  | cons x xs =>
    simp [score_available, score_ingredient_for_request] at h

lemma select_complementary_ok (db : DatabaseManager) (request : FormulationRequest)
    (current_formulation : List FormulationIngredient) (rem : ℚ)
    (cs : List FormulationIngredient)
    (h : select_complementary_ingredients db request current_formulation rem = .ok cs) :
    cs = [] := by
  simp only [select_complementary_ingredients] at h
  split at h
  · exact absurd h (by simp)
  · next scored hs =>
    obtain ⟨-, rfl⟩ := score_available_ok _ _ _ _ hs
    simp only [sortByScoreDesc, select_loop, Except.ok.injEq] at h
    exact h.symm

lemma normalize_formulation_inv (l : List FormulationIngredient)
    (h : concentrations_in_range l) :
    concentrations_in_range (normalize_formulation l) := by
  simp only [normalize_formulation]
  split_ifs with h0
  · exact h
  · intro f hf
    rcases List.mem_map.mp hf with ⟨g, hg, rfl⟩
    have hg' := h g hg
    have hnn : ∀ x ∈ l.map (fun f => f.concentration), 0 ≤ x := by
      intro x hx
      rcases List.mem_map.mp hx with ⟨g', hg', rfl⟩
      exact (h g' hg').1
    have hsum0 : 0 ≤ (l.map (fun f => f.concentration)).sum := List.sum_nonneg hnn
    have hpos : 0 < (l.map (fun f => f.concentration)).sum :=
      lt_of_le_of_ne hsum0 (Ne.symm h0)
    have hle : g.concentration ≤ (l.map (fun f => f.concentration)).sum :=
      List.single_le_sum hnn _ (List.mem_map_of_mem _ hg)
    have hx : g.concentration / (l.map (fun f => f.concentration)).sum ≤ 1 :=
      (div_le_one hpos).mpr hle
    constructor
    · exact pyRound_nonneg _ _
        (mul_nonneg (div_nonneg hg'.1 hpos.le) (by norm_num))
    · exact pyRound_le_100 _ _ (by nlinarith)

lemma validate_fold_inv (db : DatabaseManager)
    (compat : List FormulationIngredient)
    (hdb : ∀ p ∈ db.ingredients, ingredient_field_bounds p.2 = true) :
    ∀ (l acc : List FormulationIngredient), concentrations_in_range acc →
      concentrations_in_range l →
      concentrations_in_range (l.foldl (validate_step db compat) acc) := by
  intro l
  induction l with
  | nil => intro acc ha _; simpa using ha
  | cons x xs ih =>
    intro acc ha hl
    rw [List.foldl_cons]
    apply ih
    · unfold validate_step
      cases hg : get_ingredient_by_id db x.ingredient_id with
      | none => exact ha
      | some dbi =>
        have hx := hl x (List.mem_cons_self _ _)
        have hbounds := get_bounds db x.ingredient_id dbi hdb hg
        have hc1 := clamp_max_bounds dbi.max_concentration x.concentration hx
          (bounds_max_of dbi hbounds)
        have hc2 := clamp_min_bounds dbi.min_concentration _ hc1
          (bounds_min_of dbi hbounds)
        split_ifs with hcompat
        · intro f hf
          rcases List.mem_append.mp hf with hf | hf
          · exact ha f hf
          · rcases List.mem_singleton.mp hf with rfl
            exact hc2
        · exact ha
    · intro f hf
      exact hl f (List.mem_cons_of_mem _ hf)

lemma head?_mem {α : Type} (l : List α) (a : α) (h : l.head? = some a) : a ∈ l := by
  cases l with
  | nil => simp at h
  | cons x xs =>
    simp only [List.head?_cons, Option.some.injEq] at h
    subst h
    exact List.mem_cons_self _ _

/-- C1 (amended): under the pydantic field constraints on stored ingredients
and template concentrations (a record violating `Field(ge=0, le=100)` cannot
exist), every ingredient of a successfully generated response has its
concentration in `[0,100]`, and the response reports `total_percentage = 100`
— but the concentrations themselves need not sum to 100. -/
theorem generate_formulation_concentration_range (db : DatabaseManager)
    (request : FormulationRequest)
    (hdb : ∀ p ∈ db.ingredients, ingredient_field_bounds p.2 = true)
    (htpl : ∀ p ∈ db.templates, ∀ bi ∈ (p.2).base_ingredients, 0 ≤ bi.2 ∧ bi.2 ≤ 100)
    (r : FormulationResponse) (h : generate_formulation db request = .ok r) :
    concentrations_in_range r.ingredients ∧ r.total_percentage = 100 := by
  have hseed : concentrations_in_range
      (seed_from_template db (get_templates db (some request.product_type)).head?).1 := by
    apply seed_from_template_inv
    intro t ht bi hbi
    have htm := head?_mem _ _ ht
    unfold get_templates at htm
    rcases List.mem_filter.mp htm with ⟨hmm, -⟩
    rcases List.mem_map.mp hmm with ⟨p, hp, rfl⟩
    exact htpl p hp bi hbi
  have hstep2 : concentrations_in_range
      (add_required_ingredients db request
        (seed_from_template db (get_templates db (some request.product_type)).head?)).1 :=
    add_required_ingredients_inv db request hdb _ hseed
  simp only [generate_formulation] at h
  split at h
  · exact absurd h (by simp)
  · next f t heq =>
    rw [Except.ok.injEq] at h
    subst h
    have hrange_f : concentrations_in_range f := by
      split at heq
      · split at heq
        · exact absurd heq (by simp)
        · next cs hsel =>
          rw [Except.ok.injEq, Prod.mk.injEq] at heq
          obtain ⟨hf, -⟩ := heq
          obtain rfl := select_complementary_ok _ _ _ _ _ hsel
          rw [List.append_nil] at hf
          rw [← hf]
          exact hstep2
      · rw [Except.ok.injEq] at heq
        have hf : (add_required_ingredients db request
            (seed_from_template db (get_templates db (some request.product_type)).head?)).1 = f := by
          rw [heq]
        rw [← hf]
        exact hstep2
    refine ⟨?_, ?_⟩
    · show concentrations_in_range (validate_formulation db _ request)
      unfold validate_formulation
      apply validate_fold_inv db _ hdb
      · intro f' hf'
        simp at hf'
      · split_ifs with h4
        · exact normalize_formulation_inv f hrange_f
        · exact hrange_f
    · show (if t ≠ 100 then (100 : ℚ) else t) = 100
      split_ifs with h4
      · rfl
      · exact not_not.mp h4

/-- C1 witness: the amended claim evaluated on the glycerin-template build,
whose single surviving concentration is 10 ∈ [0,100] while the reported total
stays 100. -/
theorem c1_witness :
    concentrations_in_range respC1.ingredients ∧ respC1.total_percentage = 100 :=
  generate_formulation_concentration_range dbC1 reqC1
    (by with_unfolding_all decide) (by with_unfolding_all decide)
    respC1 (by with_unfolding_all rfl)

/-- C9 (confirmed): with every stored ingredient excluded, no required
ingredients, and no template for the requested product type,
`generate_formulation` succeeds with a zero-entry formulation; the
zero-total normalization guard short-circuits instead of dividing by zero. -/
theorem generate_formulation_empty_pool (db : DatabaseManager)
    (request : FormulationRequest)
    (hex : ∀ p ∈ db.ingredients, (p.2).id ∈ request.excluded_ingredients)
    (hreq : request.required_ingredients = [])
    (htpl : ∀ p ∈ db.templates, (p.2).product_type ≠ request.product_type) :
    okIngredients (generate_formulation db request) = some [] := by
  have htempl : get_templates db (some request.product_type) = [] := by
    unfold get_templates
    rw [List.filter_eq_nil_iff]
    intro t ht
    rcases List.mem_map.mp ht with ⟨p, hp, rfl⟩
    simp [htpl p hp]
  have hstep2 : add_required_ingredients db request ([], 0) = ([], 0) := by
    unfold add_required_ingredients
    rw [hreq]
    rfl
  have havail : (get_ingredients db none none 100).filter (fun ing =>
      ing.id ∉ request.excluded_ingredients ∧
      ing.id ∉ ([] : List String)) = [] := by
    rw [List.filter_eq_nil_iff]
    intro ing hing
    have hing' : ing ∈ db.ingredients.map (fun p => p.2) := by
      have hgi : get_ingredients db none none 100 =
          (db.ingredients.map (fun p => p.2)).take 100 := rfl
      rw [hgi] at hing
      exact List.mem_of_mem_take hing
    rcases List.mem_map.mp hing' with ⟨p, hp, rfl⟩
    simp [hex p hp]
  have hsel : select_complementary_ingredients db request [] 99 = .ok [] := by
    simp only [select_complementary_ingredients, List.map_nil, havail]
    rfl
  norm_num [okIngredients, generate_formulation, htempl, hstep2, hsel,
    seed_from_template, normalize_formulation, validate_formulation,
    Except.toOption]

/-- C9 witness: the all-excluded serum build returns a zero-entry formulation. -/
theorem c9_witness : okIngredients (generate_formulation db9 req9) = some [] :=
  generate_formulation_empty_pool db9 req9 (by with_unfolding_all decide) rfl
    (by with_unfolding_all decide)

end CosmoAgent
